import Mathlib

/-!
Shallow embedding of the voice-call session state machine implemented in
`src/app/hooks/useVoiceCall.ts`.  The React state of the hook (`CallState`) and
its mutable refs (`pcRef`, `localStreamRef`, `isCallerRef`, `rtcConfigRef`,
`iceCandidateQueueRef`, `remoteDescriptionSetRef`) are modelled as one
explicit `World` record, together with the observable effects: the REST
lifecycle calls made (`apiCalls`) and the socket emissions (`emitted`).
Asynchronous operations (REST calls, `getUserMedia`) are modelled by passing
their outcome as an explicit parameter; the handler then follows the try/catch structure of the source on that outcome.
-/

inductive CallStatus
  | idle
  | ringing
  | answered
  | connected
  | ended
deriving DecidableEq, Repr

abbrev CallId := String

abbrev UserId := String

abbrev TrackId := Nat

/-- `RTCIceCandidateInit`: an opaque candidate payload. -/
structure IceCandidate where
  payload : String
deriving DecidableEq, Repr

/-- `RTCSessionDescriptionInit`: an opaque SDP blob. -/
structure SessionDescription where
  sdp : String
deriving DecidableEq, Repr

/-- `RTCConfiguration`: the list of ICE server URLs. -/
structure RTCConfiguration where
  iceServers : List String
deriving DecidableEq, Repr

/-- A media stream is identified by the capture tracks it carries. -/
structure MediaStream where
  tracks : List TrackId
deriving DecidableEq, Repr

/-- The transport object (`RTCPeerConnection`) as the hook observes it:
attached senders, the descriptions applied, and the remote ICE candidates
that have been handed to `addIceCandidate`, in order. -/
structure PeerConnection where
  config : RTCConfiguration
  senders : List TrackId
  remoteDescription : Option SessionDescription
  localDescription : Option SessionDescription
  appliedCandidates : List IceCandidate
deriving DecidableEq, Repr

/-- The React state of the hook (interface `CallState` in the source). -/
structure CallState where
  callId : Option CallId
  callerId : Option UserId
  receiverId : Option UserId
  status : CallStatus
  remoteStream : Option MediaStream
  localStream : Option MediaStream
deriving DecidableEq, Repr

/-- The state cell of the hook plus all its mutable refs. -/
structure HookState where
  callState : CallState
  pcRef : Option PeerConnection
  localStreamRef : Option MediaStream
  isCallerRef : Bool
  rtcConfigRef : Option RTCConfiguration
  iceCandidateQueueRef : List IceCandidate
  remoteDescriptionSetRef : Bool
deriving DecidableEq, Repr

/-- REST lifecycle calls from `src/app/api/calls.ts` that the hook invokes. -/
inductive ApiCall
  | initiateCall (receiverId : UserId)
  | answerCall (callId : CallId)
  | rejectCall (callId : CallId)
  | endCall (callId : CallId)
deriving DecidableEq, Repr

/-- Outbound signaling emissions produced by the hook. -/
inductive SocketEmit
  | webrtcOffer (callId : CallId) (offer : SessionDescription) (targetId : UserId)
  | webrtcAnswer (callId : CallId) (answer : SessionDescription) (targetId : UserId)
  | iceCandidate (callId : CallId) (candidate : IceCandidate) (targetId : UserId)
deriving DecidableEq, Repr

/-- The whole observable world: hook state, which capture tracks have been
stopped, and the accumulated outbound effects. -/
structure World where
  hook : HookState
  stoppedTracks : List TrackId
  apiCalls : List ApiCall
  emitted : List SocketEmit
deriving DecidableEq, Repr

/-- The `useState` initializer of the hook. -/
def initialCallState : CallState :=
  { callId := none, callerId := none, receiverId := none,
    status := CallStatus.idle, remoteStream := none, localStream := none }

/-- The default STUN configuration used when no server-supplied config exists. -/
def defaultRTCConfig : RTCConfiguration :=
  { iceServers := ["stun:stun.l.google.com:19302"] }

/-- The (opaque) SDP produced by `pc.createOffer()`. -/
def mkOffer : SessionDescription := { sdp := "offer-sdp" }

/-- The (opaque) SDP produced by `pc.createAnswer()`. -/
def mkAnswer : SessionDescription := { sdp := "answer-sdp" }

/-- `initPeerConnection` (source lines 45-156): close any previous transport,
reset the candidate queue and the remote-description flag, create a fresh
transport with the given config, and attach the tracks of the stored local
stream when one exists. -/
def initPeerConnection (config : RTCConfiguration) (w : World) : World :=
  { w with
    hook.iceCandidateQueueRef := [],
    hook.remoteDescriptionSetRef := false,
    hook.pcRef := some {
      config := config,
      senders := (w.hook.localStreamRef.map MediaStream.tracks).getD [],
      remoteDescription := none,
      localDescription := none,
      appliedCandidates := [] } }

/-- `getLocalStream` (source lines 159-202): on success store the stream in
the ref and the state and attach its not-yet-attached tracks to an existing
transport; on failure (`getUserMedia` throws) change nothing and rethrow.
The returned Bool is true on success. -/
def getLocalStream (outcome : Option MediaStream) (w : World) : World × Bool :=
  match outcome with
  | none => (w, false)
  | some stream =>
    let w1 := { w with
      hook.localStreamRef := some stream,
      hook.callState.localStream := some stream }
    match w1.hook.pcRef with
    | none => (w1, true)
    | some pc =>
      let newSenders := pc.senders ++ stream.tracks.filter (fun t => !(pc.senders.contains t))
      ({ w1 with hook.pcRef := some { pc with senders := newSenders } }, true)

/-- `cleanupWebRTCResources` (source lines 205-242): close the transport,
stop every track of the stored local stream and drop it, reset the React
state to its initial value, and clear the config, the candidate queue and
the remote-description flag. -/
def cleanupWebRTCResources (w : World) : World :=
  let stoppedNow := (w.hook.localStreamRef.map MediaStream.tracks).getD []
  { w with
    hook.pcRef := none,
    hook.localStreamRef := none,
    hook.callState := initialCallState,
    hook.rtcConfigRef := none,
    hook.iceCandidateQueueRef := [],
    hook.remoteDescriptionSetRef := false,
    stoppedTracks := w.stoppedTracks ++ stoppedNow }

/-- `handleEndCall` (source lines 245-268): when a callId and a token are
present, invoke the REST `endCall` (its failure is caught and only logged);
the `finally` block always runs `cleanupWebRTCResources`.  `apiOk` is the
outcome of the REST call and, per the source, has no effect on state. -/
def handleEndCall (token : Option String) (apiOk : Bool) (w : World) : World :=
  let w1 :=
    match w.hook.callState.callId, token with
    | some cid, some _ => { w with apiCalls := w.apiCalls ++ [ApiCall.endCall cid] }
    | _, _ => w
  let _ := apiOk
  cleanupWebRTCResources w1

/-- `initiateCallHandler` (source lines 276-337).  `apiOutcome` is the callId
returned by the REST `initiateCall` (`none` = the call threw); `mediaOutcome`
is the stream returned by `getUserMedia` (`none` = it threw).  A caught error
sets `status` to `idle` and nothing else. -/
def initiateCallHandler (receiverId : UserId) (token : Option String) (socketPresent : Bool)
    (apiOutcome : Option CallId) (mediaOutcome : Option MediaStream) (w : World) : World :=
  match token, socketPresent with
  | some _, true =>
    let w0 := { w with hook.isCallerRef := true }
    let w1 := { w0 with apiCalls := w0.apiCalls ++ [ApiCall.initiateCall receiverId] }
    match apiOutcome with
    | none => { w1 with hook.callState.status := CallStatus.idle }
    | some callId =>
      let w2 := { w1 with
        hook.callState.callId := some callId,
        hook.callState.receiverId := some receiverId,
        hook.callState.status := CallStatus.ringing }
      match getLocalStream mediaOutcome w2 with
      | (w3, false) => { w3 with hook.callState.status := CallStatus.idle }
      | (w3, true) =>
        let w4 := initPeerConnection defaultRTCConfig w3
        let w5 :=
          match w4.hook.pcRef, w4.hook.localStreamRef with
          | some pc, some stream =>
            let newSenders :=
              pc.senders ++ stream.tracks.filter (fun t => !(pc.senders.contains t))
            { w4 with hook.pcRef := some { pc with senders := newSenders } }
          | _, _ => w4
        match w5.hook.pcRef with
        | some pc =>
          let w6 := { w5 with hook.pcRef := some { pc with localDescription := some mkOffer } }
          { w6 with emitted := w6.emitted ++ [SocketEmit.webrtcOffer callId mkOffer receiverId] }
        | none => w5
  | _, _ => w

/-- `answerCallHandler` (source lines 340-377).  A caught error (media or
REST failure) is only logged: no status change is performed on failure. -/
def answerCallHandler (callId : CallId) (token : Option String) (socketPresent : Bool)
    (mediaOutcome : Option MediaStream) (apiOk : Bool) (w : World) : World :=
  match token, socketPresent with
  | some _, true =>
    let w0 := { w with hook.isCallerRef := false }
    match getLocalStream mediaOutcome w0 with
    | (w1, false) => w1
    | (w1, true) =>
      let cfg := w1.hook.rtcConfigRef.getD defaultRTCConfig
      let w2 := initPeerConnection cfg w1
      let w3 := { w2 with apiCalls := w2.apiCalls ++ [ApiCall.answerCall callId] }
      if apiOk then
        { w3 with
          hook.callState.callId := some callId,
          hook.callState.status := CallStatus.answered }
      else w3
  | _, _ => w

/-- `rejectCallHandler` (source lines 380-396): no-op without a token;
otherwise invoke the REST `rejectCall`, and on success set `status := idle`
and clear `callId` (on failure the catch only logs). -/
def rejectCallHandler (token : Option String) (apiOk : Bool) (callId : CallId) (w : World) : World :=
  match token with
  | none => w
  | some _ =>
    let w1 := { w with apiCalls := w.apiCalls ++ [ApiCall.rejectCall callId] }
    if apiOk then
      { w1 with
        hook.callState.status := CallStatus.idle,
        hook.callState.callId := none }
    else w1

/-- `handleCallIncoming` (source lines 403-418): unconditionally install the
incoming callId/callerId and set `status := ringing`; store the config if one
was delivered. -/
def handleCallIncoming (callId : CallId) (callerId : UserId)
    (rtcConfig : Option RTCConfiguration) (w : World) : World :=
  let w1 := { w with
    hook.callState.callId := some callId,
    hook.callState.callerId := some callerId,
    hook.callState.status := CallStatus.ringing }
  match rtcConfig with
  | some cfg => { w1 with hook.rtcConfigRef := some cfg }
  | none => w1

/-- `handleCallAnswered` (source lines 439-448): set `status := answered`
only when the callId of the event matches the current one. -/
def handleCallAnswered (callId : CallId) (w : World) : World :=
  if w.hook.callState.callId = some callId then
    { w with hook.callState.status := CallStatus.answered }
  else w

/-- `handleCallRejected` (source lines 457-460): unconditionally set
`status := idle` and clear `callId` — the callId of the event is never compared
with the current one. -/
def handleCallRejected (callId : CallId) (w : World) : World :=
  let _ := callId
  { w with
    hook.callState.status := CallStatus.idle,
    hook.callState.callId := none }

/-- `handleCallEnded` (source lines 463-479): ignore the event when its
callId differs from the current one; otherwise local cleanup only, with no
REST call. -/
def handleCallEnded (callId : CallId) (endedBy : UserId) (w : World) : World :=
  let _ := endedBy
  if w.hook.callState.callId ≠ some callId then w
  else cleanupWebRTCResources w

/-- `flushIceCandidateQueue` (source lines 482-496): when a transport exists
and the remote description has been set, pop the queued candidates in FIFO
order and hand each to `addIceCandidate`. -/
def flushIceCandidateQueue (w : World) : World :=
  match w.hook.pcRef with
  | none => w
  | some pc =>
    if w.hook.remoteDescriptionSetRef then
      { w with
        hook.pcRef := some { pc with
          appliedCandidates := pc.appliedCandidates ++ w.hook.iceCandidateQueueRef },
        hook.iceCandidateQueueRef := [] }
    else w

/-- `handleICECandidate` (source lines 603-632): drop a null candidate; drop
any candidate when no transport exists; queue the candidate while the remote
description is unset; otherwise apply it immediately.  The callId of the event is
never compared with the current one. -/
def handleICECandidate (callId : CallId) (candidate : Option IceCandidate)
    (senderId : UserId) (w : World) : World :=
  let _ := callId
  let _ := senderId
  match candidate with
  | none => w
  | some c =>
    match w.hook.pcRef with
    | none => w
    | some pc =>
      if !w.hook.remoteDescriptionSetRef then
        { w with hook.iceCandidateQueueRef := w.hook.iceCandidateQueueRef ++ [c] }
      else
        { w with hook.pcRef := some { pc with appliedCandidates := pc.appliedCandidates ++ [c] } }

/-- `handleWebRTCAnswer` (source lines 560-600): ignore an answer whose
callId differs from the current one; otherwise apply the remote description,
set the flag, move to `connected`, and flush the candidate queue. -/
def handleWebRTCAnswer (callId : CallId) (answer : SessionDescription)
    (receiverId : UserId) (w : World) : World :=
  let _ := receiverId
  if w.hook.callState.callId ≠ some callId then w
  else
    match w.hook.pcRef with
    | none => w
    | some pc =>
      let w1 := { w with
        hook.pcRef := some { pc with remoteDescription := some answer },
        hook.remoteDescriptionSetRef := true }
      let w2 :=
        if w1.hook.callState.callId = some callId then
          { w1 with hook.callState.status := CallStatus.connected }
        else w1
      flushIceCandidateQueue w2

/-- `handleWebRTCOffer` (source lines 499-557): lazily construct the
transport (and acquire media) when absent, apply the remote offer, set the
flag, flush the queue, create and apply a local answer, emit it, and move to
`connected` when the callId matches.  The offer itself is applied without
any callId comparison. -/
def handleWebRTCOffer (callId : CallId) (offer : SessionDescription) (callerId : UserId)
    (mediaOutcome : Option MediaStream) (socketPresent : Bool) (w : World) : World :=
  let setup : World × Bool :=
    match w.hook.pcRef with
    | some _ => (w, true)
    | none =>
      let cfg := w.hook.rtcConfigRef.getD defaultRTCConfig
      let w1 := initPeerConnection cfg w
      if w1.hook.callState.localStream = none then getLocalStream mediaOutcome w1
      else (w1, true)
  match setup with
  | (w1, false) => w1
  | (w1, true) =>
    match w1.hook.pcRef with
    | none => w1
    | some pc =>
      let w2 := { w1 with
        hook.pcRef := some { pc with remoteDescription := some offer },
        hook.remoteDescriptionSetRef := true }
      let w3 := flushIceCandidateQueue w2
      let w4 :=
        match w3.hook.pcRef with
        | some pc3 =>
          { w3 with hook.pcRef := some { pc3 with localDescription := some mkAnswer } }
        | none => w3
      if socketPresent then
        let w5 :=
          { w4 with emitted := w4.emitted ++ [SocketEmit.webrtcAnswer callId mkAnswer callerId] }
        if w5.hook.callState.callId = some callId then
          { w5 with hook.callState.status := CallStatus.connected }
        else w5
      else w4

/-- `handleCallError` (source lines 635-638): set `status := idle` and
nothing else. -/
def handleCallError (w : World) : World :=
  { w with hook.callState.status := CallStatus.idle }

/-- The `pc.onicecandidate` callback installed in `initPeerConnection`
(source lines 69-86): a non-null candidate is emitted over the socket when a
target and a callId are known; a null candidate (end of gathering) is only
logged, never transmitted. -/
def pcOnIceCandidate (event : Option IceCandidate) (socketPresent : Bool) (w : World) : World :=
  match event, socketPresent with
  | some c, true =>
    let cs := w.hook.callState
    let targetId := cs.receiverId.orElse (fun _ => cs.callerId)
    match targetId, cs.callId with
    | some t, some cid => { w with emitted := w.emitted ++ [SocketEmit.iceCandidate cid c t] }
    | _, _ => w
  | _, _ => w

/-! Concrete sample worlds used by witnesses and counterexamples. -/

/-- A two-track capture stream. -/
def sampleStream : MediaStream := { tracks := [1, 2] }

/-- A freshly constructed transport with the sample tracks attached. -/
def samplePC : PeerConnection :=
  { config := defaultRTCConfig,
    senders := [1, 2],
    remoteDescription := none,
    localDescription := none,
    appliedCandidates := [] }

/-- A receiver-side session ringing on call "c1" with media and transport up. -/
def ringingWorld : World :=
  { hook := {
      callState := {
        callId := some "c1",
        callerId := some "A",
        receiverId := none,
        status := CallStatus.ringing,
        remoteStream := none,
        localStream := some sampleStream },
      pcRef := some samplePC,
      localStreamRef := some sampleStream,
      isCallerRef := false,
      rtcConfigRef := none,
      iceCandidateQueueRef := [],
      remoteDescriptionSetRef := false },
    stoppedTracks := [],
    apiCalls := [],
    emitted := [] }

/-- A session on call "c2" whose remote description is already applied. -/
def staleWorld : World :=
  { ringingWorld with
    hook.callState.callId := some "c2",
    hook.remoteDescriptionSetRef := true }

/-- A ringing session before any transport has been constructed. -/
def noPcWorld : World :=
  { ringingWorld with hook.pcRef := none }

/-- One remote event relevant to candidate sequencing within a session:
either a remote ICE candidate arrives, or the remote SDP answer arrives. -/
inductive IceEvent
  | candidate (c : IceCandidate)
  | answerArrives
deriving DecidableEq, Repr

/-- Dispatch one `IceEvent` to the corresponding source handler. -/
def stepIce (cid : CallId) (sender : UserId) (ans : SessionDescription) (rid : UserId)
    (w : World) (e : IceEvent) : World :=
  match e with
  | IceEvent.candidate c => handleICECandidate cid (some c) sender w
  | IceEvent.answerArrives => handleWebRTCAnswer cid ans rid w

/-- Run a sequence of remote events through the source handlers. -/
def runIce (cid : CallId) (sender : UserId) (ans : SessionDescription) (rid : UserId)
    (w : World) (evs : List IceEvent) : World :=
  evs.foldl (stepIce cid sender ans rid) w

/-- The candidates carried by a sequence of events, in arrival order. -/
def arrivalsOf : List IceEvent → List IceCandidate
  | [] => []
  | IceEvent.candidate c :: rest => c :: arrivalsOf rest
  | IceEvent.answerArrives :: rest => arrivalsOf rest

/-- The candidates that have been handed to `addIceCandidate`, in order. -/
def appliedOf (w : World) : List IceCandidate :=
  (w.hook.pcRef.map PeerConnection.appliedCandidates).getD []

/-- A concrete event sequence for exercising the candidate machinery. -/
def c3evs : List IceEvent :=
  [IceEvent.candidate { payload := "a" }, IceEvent.candidate { payload := "b" },
   IceEvent.answerArrives, IceEvent.candidate { payload := "d" }]

/-! Theorems settling the claims. -/

/-- C1 (counterexample): a remote `rejected` event whose callId ("c2") does
not match the live session callId ("c1") still mutates the session: the
source handler resets status and callId with no comparison at all. -/
theorem C1_counterexample : handleCallRejected "c2" ringingWorld ≠ ringingWorld := by
  decide

/-- C1 (amended): remote `ended`, `answered` and `webrtc-answer` events with a
non-matching callId produce no state change, but a remote `rejected` event
resets status and callId unconditionally, without any callId comparison. -/
theorem C1_amended_mismatch_guards (w : World) (callId : CallId) (endedBy : UserId)
    (ans : SessionDescription) (rid : UserId)
    (h : w.hook.callState.callId ≠ some callId) :
    handleCallEnded callId endedBy w = w ∧
    handleCallAnswered callId w = w ∧
    handleWebRTCAnswer callId ans rid w = w ∧
    handleCallRejected callId w =
      { w with
        hook.callState.status := CallStatus.idle,
        hook.callState.callId := none } := by
  refine ⟨?_, ?_, ?_, rfl⟩
  · simp [handleCallEnded, h]
  · simp [handleCallAnswered, h]
  · simp [handleWebRTCAnswer, h]

/-- C1 witness: the amended statement at concrete inputs. -/
theorem C1_amended_mismatch_guards_witness :
    handleCallEnded "c2" "B" ringingWorld = ringingWorld ∧
    handleCallAnswered "c2" ringingWorld = ringingWorld ∧
    handleWebRTCAnswer "c2" mkAnswer "B" ringingWorld = ringingWorld ∧
    handleCallRejected "c2" ringingWorld =
      { ringingWorld with
        hook.callState.status := CallStatus.idle,
        hook.callState.callId := none } :=
  C1_amended_mismatch_guards ringingWorld "c2" "B" mkAnswer "B" (by decide)

/-- C2: invoking `end` always yields status idle, a cleared callId, no
retained local stream reference, a closed transport, and every capture track
of the stream stopped — for every token and every REST outcome — and running
`end` again on the result changes nothing. -/
theorem C2_end_always_releases (token : Option String) (apiOk apiOk2 : Bool) (w : World) :
    (handleEndCall token apiOk w).hook.callState.status = CallStatus.idle ∧
    (handleEndCall token apiOk w).hook.callState.callId = none ∧
    (handleEndCall token apiOk w).hook.localStreamRef = none ∧
    (handleEndCall token apiOk w).hook.callState.localStream = none ∧
    (handleEndCall token apiOk w).hook.pcRef = none ∧
    (w.hook.localStreamRef.map MediaStream.tracks).getD []
      ⊆ (handleEndCall token apiOk w).stoppedTracks ∧
    handleEndCall token apiOk2 (handleEndCall token apiOk w) = handleEndCall token apiOk w := by
  cases hc : w.hook.callState.callId <;> cases token <;>
    simp [handleEndCall, cleanupWebRTCResources, initialCallState, hc,
      List.subset_append_right]

/-- C4 (counterexample): the `call:error` path transitions the session to
idle but leaves the callId populated and the transport open — a partial
reset, contradicting the claim that every path to idle clears all fields. -/
theorem C4_counterexample :
    (handleCallError ringingWorld).hook.callState.status = CallStatus.idle ∧
    (handleCallError ringingWorld).hook.callState.callId = some "c1" ∧
    (handleCallError ringingWorld).hook.pcRef ≠ none := by
  decide

/-- C4 (amended): only the teardown path `cleanupWebRTCResources` (local end
and matching remote ended) clears every session field together; the local and
remote reject handlers clear only status and callId, and the error handler
clears only status, leaving all other fields populated. -/
theorem C4_amended_reset_paths (w : World) (cid : CallId) (tok : String) :
    (cleanupWebRTCResources w).hook.callState = initialCallState ∧
    (cleanupWebRTCResources w).hook.pcRef = none ∧
    (cleanupWebRTCResources w).hook.localStreamRef = none ∧
    (cleanupWebRTCResources w).hook.rtcConfigRef = none ∧
    (cleanupWebRTCResources w).hook.iceCandidateQueueRef = [] ∧
    (cleanupWebRTCResources w).hook.remoteDescriptionSetRef = false ∧
    handleCallError w = { w with hook.callState.status := CallStatus.idle } ∧
    handleCallRejected cid w =
      { w with
        hook.callState.status := CallStatus.idle,
        hook.callState.callId := none } ∧
    rejectCallHandler (some tok) true cid w =
      { w with
        apiCalls := w.apiCalls ++ [ApiCall.rejectCall cid],
        hook.callState.status := CallStatus.idle,
        hook.callState.callId := none } :=
  ⟨rfl, rfl, rfl, rfl, rfl, rfl, rfl, rfl, rfl⟩

/-- C5 (counterexample): an incoming-call event installs a new callId "c2"
while the resident session "c1" is still non-idle, so a new callId does
appear while a prior non-idle session is resident: no status guard exists. -/
theorem C5_counterexample :
    ringingWorld.hook.callState.status ≠ CallStatus.idle ∧
    ringingWorld.hook.callState.callId = some "c1" ∧
    (handleCallIncoming "c2" "X" none ringingWorld).hook.callState.callId = some "c2" := by
  decide

/-- C5 (amended): the hook holds a single CallState record, so at most one
session exists by construction, but neither the incoming-call handler nor a
local initiate consults the current status: each unconditionally installs the
new callId over whatever session is resident. -/
theorem C5_amended_no_status_guard (w : World) (cid : CallId) (caller rid : UserId)
    (tok : String) (stream : MediaStream) :
    (handleCallIncoming cid caller none w).hook.callState.callId = some cid ∧
    (handleCallIncoming cid caller none w).hook.callState.status = CallStatus.ringing ∧
    (initiateCallHandler rid (some tok) true (some cid) (some stream) w).hook.callState.callId
      = some cid := by
  refine ⟨rfl, rfl, ?_⟩
  rcases h : w.hook.pcRef with _ | pc <;>
    simp [initiateCallHandler, getLocalStream, initPeerConnection, h]

/-- C9: a locally discovered terminal null candidate is never transmitted as
a candidate payload, and an inbound null candidate payload is a complete
no-op: never queued, never applied, no state change at all. -/
theorem C9_null_candidates_noop (w : World) (cid : CallId) (s : UserId) (sp : Bool) :
    pcOnIceCandidate none sp w = w ∧ handleICECandidate cid none s w = w := by
  cases sp <;> exact ⟨rfl, rfl⟩

/-- C10: a remote candidate arriving before any transport has been
constructed is discarded entirely — the handler returns the world unchanged,
so the candidate is neither queued nor ever applied. -/
theorem C10_candidate_without_pc_dropped (w : World) (cid : CallId) (c : IceCandidate)
    (s : UserId) (h : w.hook.pcRef = none) :
    handleICECandidate cid (some c) s w = w := by
  simp [handleICECandidate, h]

/-- C10 witness at concrete inputs. -/
theorem C10_witness :
    noPcWorld.hook.pcRef = none ∧
    handleICECandidate "c1" (some { payload := "a" }) "A" noPcWorld = noPcWorld :=
  ⟨rfl, C10_candidate_without_pc_dropped noPcWorld "c1" { payload := "a" } "A" rfl⟩

/-- C6: remote `ended` and `rejected` events perform local work only and
never append a lifecycle REST call, while a local end (with callId and token
present) and a local reject do invoke the corresponding REST endpoint. -/
theorem C6_lifecycle_calls_local_only (w : World) (cid cid2 : CallId) (endedBy : UserId)
    (tok : String) (apiOk : Bool)
    (h : w.hook.callState.callId = some cid) :
    (handleCallEnded cid2 endedBy w).apiCalls = w.apiCalls ∧
    (handleCallRejected cid2 w).apiCalls = w.apiCalls ∧
    (handleEndCall (some tok) apiOk w).apiCalls = w.apiCalls ++ [ApiCall.endCall cid] ∧
    (rejectCallHandler (some tok) apiOk cid w).apiCalls
      = w.apiCalls ++ [ApiCall.rejectCall cid] := by
  refine ⟨?_, rfl, ?_, ?_⟩
  · simp only [handleCallEnded]
    split <;> rfl
  · simp [handleEndCall, cleanupWebRTCResources, h]
  · cases apiOk <;> rfl

/-- C6 witness at concrete inputs. -/
theorem C6_lifecycle_calls_local_only_witness :
    (handleCallEnded "c1" "B" ringingWorld).apiCalls = ringingWorld.apiCalls ∧
    (handleCallRejected "c1" ringingWorld).apiCalls = ringingWorld.apiCalls ∧
    (handleEndCall (some "t") true ringingWorld).apiCalls
      = ringingWorld.apiCalls ++ [ApiCall.endCall "c1"] ∧
    (rejectCallHandler (some "t") true "c1" ringingWorld).apiCalls
      = ringingWorld.apiCalls ++ [ApiCall.rejectCall "c1"] :=
  C6_lifecycle_calls_local_only ringingWorld "c1" "c1" "B" "t" true (by decide)

/-- C7 (counterexample): an ICE candidate tagged with callId "c1" arrives
while the live session is "c2" with its remote description applied: the stale
candidate is nevertheless applied to the transport of the live session. -/
theorem C7_counterexample :
    staleWorld.hook.callState.callId = some "c2" ∧
    (handleICECandidate "c1" (some { payload := "stale" }) "X" staleWorld).hook.pcRef =
      some { samplePC with appliedCandidates := [{ payload := "stale" }] } := by
  decide

/-- C7 (amended): only the webrtc-answer handler (together with the ended and
answered handlers) verifies the live callId before mutating; the ICE-candidate
handler behaves identically for every event callId and sender, and a
webrtc-offer carrying a foreign callId still applies its remote description
to the live transport. -/
theorem C7_amended_stale_checks (w : World) (cid cid2 : CallId)
    (cand : Option IceCandidate) (s s2 : UserId) (ans off : SessionDescription)
    (caller rid : UserId) (mo : Option MediaStream) (sp : Bool) (pc : PeerConnection)
    (hpc : w.hook.pcRef = some pc)
    (h : w.hook.callState.callId ≠ some cid) :
    handleICECandidate cid cand s w = handleICECandidate cid2 cand s2 w ∧
    (handleWebRTCOffer cid off caller mo sp w).hook.remoteDescriptionSetRef = true ∧
    handleWebRTCAnswer cid ans rid w = w := by
  refine ⟨rfl, ?_, ?_⟩
  · cases sp <;> simp [handleWebRTCOffer, flushIceCandidateQueue, hpc, h]
  · simp [handleWebRTCAnswer, h]

/-- C7 witness at concrete inputs. -/
theorem C7_amended_stale_checks_witness :
    handleICECandidate "c1" (some { payload := "x" }) "X" staleWorld
      = handleICECandidate "c9" (some { payload := "x" }) "Y" staleWorld ∧
    (handleWebRTCOffer "c1" mkOffer "A" none true staleWorld).hook.remoteDescriptionSetRef
      = true ∧
    handleWebRTCAnswer "c1" mkAnswer "B" staleWorld = staleWorld :=
  C7_amended_stale_checks staleWorld "c1" "c9" (some { payload := "x" }) "X" "Y"
    mkAnswer mkOffer "A" "B" none true samplePC rfl (by decide)

/-- C8 (counterexample): the REST answer call fails while the session is
ringing: the catch in the answer handler only logs, so the status remains
ringing instead of reverting to idle as the claim requires. -/
theorem C8_counterexample :
    (answerCallHandler "c1" (some "t") true (some sampleStream) false
        ringingWorld).hook.callState.status = CallStatus.ringing := by
  decide

/-- C8 (amended): a failed initiate (REST failure, or media failure after the
REST call) reverts the status to idle, but a failed answer (media or REST
failure) leaves the status unchanged — the transition to answered is merely
skipped, with no revert to idle. -/
theorem C8_amended_failure_paths (w : World) (rid : UserId) (cid : CallId) (tok : String)
    (mo : Option MediaStream) (stream : MediaStream) (apiOk : Bool) :
    (initiateCallHandler rid (some tok) true none mo w).hook.callState.status
      = CallStatus.idle ∧
    (initiateCallHandler rid (some tok) true (some cid) none w).hook.callState.status
      = CallStatus.idle ∧
    (answerCallHandler cid (some tok) true none apiOk w).hook.callState.status
      = w.hook.callState.status ∧
    (answerCallHandler cid (some tok) true (some stream) false w).hook.callState.status
      = w.hook.callState.status := by
  refine ⟨rfl, rfl, rfl, ?_⟩
  rcases h : w.hook.pcRef with _ | pc <;>
    simp [answerCallHandler, getLocalStream, initPeerConnection, h]

/-- One-step preservation for the candidate-sequencing invariant: the
transport stays present; the queue is empty whenever the remote description
is applied; applied candidates followed by the queue extend by exactly the
arriving candidates; and while the remote description stays unapplied the
applied list does not change. -/
theorem stepIce_inv (cid : CallId) (sender : UserId) (ans : SessionDescription)
    (rid : UserId) (w : World) (e : IceEvent)
    (hpc : w.hook.pcRef.isSome = true)
    (hq : w.hook.remoteDescriptionSetRef = true → w.hook.iceCandidateQueueRef = []) :
    ((stepIce cid sender ans rid w e).hook.pcRef.isSome = true) ∧
    ((stepIce cid sender ans rid w e).hook.remoteDescriptionSetRef = true →
      (stepIce cid sender ans rid w e).hook.iceCandidateQueueRef = []) ∧
    (appliedOf (stepIce cid sender ans rid w e) ++
        (stepIce cid sender ans rid w e).hook.iceCandidateQueueRef =
      appliedOf w ++ w.hook.iceCandidateQueueRef ++ arrivalsOf [e]) ∧
    ((stepIce cid sender ans rid w e).hook.remoteDescriptionSetRef = false →
      appliedOf (stepIce cid sender ans rid w e) = appliedOf w ∧
      w.hook.remoteDescriptionSetRef = false) := by
  rcases hp : w.hook.pcRef with _ | pc
  · rw [hp] at hpc
    exact absurd hpc (by simp)
  cases e with
  | candidate c =>
    cases hR : w.hook.remoteDescriptionSetRef with
    | false =>
      simp [stepIce, handleICECandidate, appliedOf, arrivalsOf, hp, hR]
    | true =>
      have hQ : w.hook.iceCandidateQueueRef = [] := hq hR
      simp [stepIce, handleICECandidate, appliedOf, arrivalsOf, hp, hR, hQ]
  | answerArrives =>
    by_cases hmatch : w.hook.callState.callId = some cid
    · simp [stepIce, handleWebRTCAnswer, flushIceCandidateQueue, appliedOf,
        arrivalsOf, hp, hmatch]
    · have hid : stepIce cid sender ans rid w IceEvent.answerArrives = w := by
        simp [stepIce, handleWebRTCAnswer, hmatch]
      rw [hid]
      exact ⟨hpc, hq, by simp [arrivalsOf], fun h => ⟨rfl, h⟩⟩

/-- C3: over any sequence of remote ICE candidates and remote-answer arrivals
in a session with a live transport, the applied candidates followed by the
pending queue always equal the prior contents extended by the arrivals in
their original order (so every candidate that is queued is later applied
exactly once, in order), the queue is empty whenever the remote description
is applied (a candidate arriving afterwards is applied immediately), and no
candidate is applied while the remote description remains unapplied. -/
theorem C3_candidates_once_in_order (cid : CallId) (sender : UserId)
    (ans : SessionDescription) (rid : UserId) (evs : List IceEvent) (w : World)
    (hpc : w.hook.pcRef.isSome = true)
    (hq : w.hook.remoteDescriptionSetRef = true → w.hook.iceCandidateQueueRef = []) :
    ((runIce cid sender ans rid w evs).hook.pcRef.isSome = true) ∧
    ((runIce cid sender ans rid w evs).hook.remoteDescriptionSetRef = true →
      (runIce cid sender ans rid w evs).hook.iceCandidateQueueRef = []) ∧
    (appliedOf (runIce cid sender ans rid w evs) ++
        (runIce cid sender ans rid w evs).hook.iceCandidateQueueRef =
      appliedOf w ++ w.hook.iceCandidateQueueRef ++ arrivalsOf evs) ∧
    ((runIce cid sender ans rid w evs).hook.remoteDescriptionSetRef = false →
      appliedOf (runIce cid sender ans rid w evs) = appliedOf w ∧
      w.hook.remoteDescriptionSetRef = false) := by
  induction evs generalizing w with
  | nil => exact ⟨hpc, hq, by simp [runIce, arrivalsOf], fun h => ⟨rfl, h⟩⟩
  | cons e rest ih =>
    obtain ⟨h1, h2, h3, h4⟩ := stepIce_inv cid sender ans rid w e hpc hq
    obtain ⟨g1, g2, g3, g4⟩ := ih (stepIce cid sender ans rid w e) h1 h2
    have hrun : runIce cid sender ans rid w (e :: rest) =
        runIce cid sender ans rid (stepIce cid sender ans rid w e) rest := rfl
    rw [hrun]
    refine ⟨g1, g2, ?_, fun hf => ?_⟩
    · rw [g3, h3]
      cases e <;> simp [arrivalsOf]
    · obtain ⟨ga, gr⟩ := g4 hf
      obtain ⟨ha, hr⟩ := h4 gr
      exact ⟨ha ▸ ga, hr⟩

/-- C3 witness: two candidates buffered before the remote answer, one after,
on the live call "c1". -/
theorem C3_candidates_once_in_order_witness :
    ((runIce "c1" "A" mkAnswer "B" ringingWorld c3evs).hook.pcRef.isSome = true) ∧
    ((runIce "c1" "A" mkAnswer "B" ringingWorld c3evs).hook.remoteDescriptionSetRef = true →
      (runIce "c1" "A" mkAnswer "B" ringingWorld c3evs).hook.iceCandidateQueueRef = []) ∧
    (appliedOf (runIce "c1" "A" mkAnswer "B" ringingWorld c3evs) ++
        (runIce "c1" "A" mkAnswer "B" ringingWorld c3evs).hook.iceCandidateQueueRef =
      appliedOf ringingWorld ++ ringingWorld.hook.iceCandidateQueueRef ++ arrivalsOf c3evs) ∧
    ((runIce "c1" "A" mkAnswer "B" ringingWorld c3evs).hook.remoteDescriptionSetRef = false →
      appliedOf (runIce "c1" "A" mkAnswer "B" ringingWorld c3evs) = appliedOf ringingWorld ∧
      ringingWorld.hook.remoteDescriptionSetRef = false) :=
  C3_candidates_once_in_order "c1" "A" mkAnswer "B" c3evs ringingWorld (by decide)
    (by decide)

